import Mathlib

/-!
devspace: variable resolution and builder selection

A shallow embedding of

* `pkg/devspace/config/configutil/load.go`: `VarMatchRegex`, `VarEnvPrefix`,
  `varReplaceFn`, `varMatchFn`, `AskQuestion`;
* `pkg/devspace/image/create_builder.go`: `CreateBuilder`.

Go strings are modelled by Lean strings (sequences of Unicode code points, that is
valid UTF-8 text).  Effects are made explicit: the environment, the standard input
and the persistence layer are passed in, every call to a collaborator is recorded
in an event list, and `log.Fatalf` / run-time panics are outcomes of their own.
-/

namespace Devspace

/-! ## Regular expressions (the fragment used by `VarMatchRegex`) -/

/-- Regular expressions over characters, with character classes given by a predicate. -/
inductive Regex where
  | nothing : Regex
  | empty : Regex
  | cls (p : Char → Bool) : Regex
  | cat (r s : Regex) : Regex
  | alt (r s : Regex) : Regex
  | star (r : Regex) : Regex

namespace Regex

/-- The literal character `c` (an escaped character such as `\$` in the pattern). -/
def lit (c : Char) : Regex := cls (fun d => d == c)

/-- The negated class `[^c]`. -/
def notLit (c : Char) : Regex := cls (fun d => d != c)

/-- One or more repetitions: `r+`. -/
def plus (r : Regex) : Regex := cat r (star r)

/-- Does `r` accept the empty text? -/
def nullable : Regex → Bool
  | nothing => false
  | empty => true
  | cls _ => false
  | cat r s => nullable r && nullable s
  | alt r s => nullable r || nullable s
  | star _ => true

/-- Brzozowski derivative of `r` with respect to the character `c`. -/
def deriv : Regex → Char → Regex
  | nothing, _ => nothing
  | empty, _ => nothing
  | cls p, c => if p c then empty else nothing
  | cat r s, c =>
      if nullable r then alt (cat (deriv r c) s) (deriv s c) else cat (deriv r c) s
  | alt r s, c => alt (deriv r c) (deriv s c)
  | star r, c => cat (deriv r c) (star r)

/-- Whole-text match of a list of characters. -/
def matchList : Regex → List Char → Bool
  | r, [] => nullable r
  | r, c :: cs => matchList (deriv r c) cs

/-- The pattern is anchored at both ends (`^ ... $` without the multi-line flag),
so `MatchString` is a whole-text match. -/
def MatchString (r : Regex) (s : String) : Bool := matchList r s.data

/-- The texts denoted by a regular expression. -/
def Lang : Regex → List Char → Prop
  | nothing, _ => False
  | empty, l => l = []
  | cls p, l => ∃ c, p c = true ∧ l = [c]
  | cat r s, l => ∃ l₁ l₂, l = l₁ ++ l₂ ∧ Lang r l₁ ∧ Lang s l₂
  | alt r s, l => Lang r l ∨ Lang s l
  | star r, l => ∃ L : List (List Char), l = L.flatten ∧ ∀ y ∈ L, Lang r y ∧ y ≠ []

end Regex

/-! ## `load.go` -/

/-- `VarMatchRegex = regexp.MustCompile("^\\$\\{[^\\}]+\\}$")`. -/
def VarMatchRegex : Regex :=
  Regex.cat (Regex.lit '$')
    (Regex.cat (Regex.lit '{')
      (Regex.cat (Regex.plus (Regex.notLit '}')) (Regex.lit '}')))

/-- `VarEnvPrefix`. -/
def VarEnvPrefix : String := "DEVSPACE_VAR_"

/-- `varMatchFn(key, value)`. -/
def varMatchFn (_key value : String) : Bool := VarMatchRegex.MatchString value

/-! ## Go values and library functions used by `load.go` -/

/-- The dynamic values (`interface{}`) that flow through variable resolution:
the `nil` interface, `bool`, `int` and `string`. -/
inductive Value where
  | nil : Value
  | bool (b : Bool) : Value
  | int (i : Int) : Value
  | str (s : String) : Value
  deriving DecidableEq, Repr

/-- Go's `unicode.IsSpace`: the Latin-1 cases spelled out in its source, then the
`White_Space` range table. -/
def isSpace (c : Char) : Bool :=
  let n := c.toNat
  if n ≤ 0xFF then
    n == 0x09 || n == 0x0A || n == 0x0B || n == 0x0C || n == 0x0D || n == 0x20 ||
      n == 0x85 || n == 0xA0
  else
    n == 0x1680 || (0x2000 ≤ n && n ≤ 0x200A) || n == 0x2028 || n == 0x2029 ||
      n == 0x202F || n == 0x205F || n == 0x3000

/-- Go's `strings.TrimSpace`: all leading and trailing white space removed. -/
def TrimSpace (s : String) : String :=
  String.mk ((s.data.dropWhile isSpace).reverse.dropWhile isSpace).reverse

/-- Go's `strings.ToUpper`: every code point mapped through `unicode.ToUpper`, whose
case tables are taken as the parameter `up`. -/
def ToUpper (up : Char → Char) (s : String) : String := String.mk (s.data.map up)

/-- Width of Go's `int` (`strconv.IntSize`) on 64-bit platforms. -/
def intSize : Nat := 64

/-- Value of a run of ASCII decimal digits, `none` on any other character. -/
def parseDigits : List Char → Nat → Option Nat
  | [], acc => some acc
  | c :: cs, acc =>
      if 48 ≤ c.toNat ∧ c.toNat ≤ 57 then parseDigits cs (acc * 10 + (c.toNat - 48)) else none

/-- Go's `strconv.Atoi`: an optional sign, then at least one decimal digit, accepted when
the value fits `int`; `none` stands for a non-nil error (syntax or range). -/
def Atoi (s : String) : Option Int :=
  match s.data with
  | [] => none
  | c :: cs =>
      let neg := c == '-'
      let digits := if c == '-' || c == '+' then cs else c :: cs
      if digits.isEmpty then none
      else
        match parseDigits digits 0 with
        | none => none
        | some n =>
            if neg then
              if n ≤ 2 ^ (intSize - 1) then some (-(n : Int)) else none
            else
              if n < 2 ^ (intSize - 1) then some (n : Int) else none

/-- `value[2 : len(value)-1]`: the slice expression panics (`none`) when the string has
fewer than three bytes.  On a string whose first two characters and last character are
single-byte, as in every text accepted by `VarMatchRegex`, the byte slice is the text
without its first two characters and its last one. -/
def sliceToken (value : String) : Option String :=
  if value.utf8ByteSize < 3 then none
  else some (String.mk ((value.data.drop 2).dropLast))

/-! ## The generated config (variable store) and the collaborators of `load.go` -/

/-- Modelled from the spec: the active profile of the generated config (package
`generated`, not part of the sources at hand), with its `vars` mapping
(name to typed value) and its `imageTags` mapping (image name to tag). -/
structure DevSpaceConfig where
  Vars : String → Option Value
  ImageTags : String → Option String

/-- Modelled from the spec: the persisted store `generated.Config`, a record keyed by the
active profile name. -/
structure Config where
  ActiveConfig : String
  active : DevSpaceConfig

/-- Modelled from the spec: `generatedConfig.GetActive()`, the active profile. -/
def Config.GetActive (c : Config) : DevSpaceConfig := c.active

/-- A Go map assignment `m[k] = v`. -/
def setKey {α : Type} (m : String → Option α) (k : String) (v : α) : String → Option α :=
  fun k' => if k' = k then some v else m k'

/-- The assignment `currentConfig.Vars[name] = v` seen through the pointer returned by
`GetActive`. -/
def Config.setVar (c : Config) (name : String) (v : Value) : Config :=
  { c with active := { c.active with Vars := setKey c.active.Vars name v } }

/-- `configs.Variable`: the fields read by `AskQuestion`. -/
structure Variable where
  Question : Option String := none
  Default : Option String := none
  RegexPattern : Option String := none
  deriving DecidableEq, Repr

/-- `stdinutil.GetFromStdinParams`: the fields written by `AskQuestion`, with Go's zero
values as defaults. -/
structure GetFromStdinParams where
  Question : String := ""
  DefaultValue : String := ""
  ValidationRegexPattern : String := ""
  deriving DecidableEq, Repr

/-- Observable steps of a resolution, in the order in which they happen. -/
inductive Event where
  | loadConfig : Event
  | getFromStdin (params : GetFromStdinParams) : Event
  | writeVar (name : String) (v : Value) : Event
  | saveConfig : Event
  deriving DecidableEq, Repr

/-- The collaborators of `load.go`: `unicode.ToUpper`, `os.Getenv` (the empty string
for an unset variable), the operator answering `stdinutil.GetFromStdin`, and the errors,
if any, returned by `generated.LoadConfig` and `generated.SaveConfig`. -/
structure Host where
  unicodeToUpper : Char → Char
  getenv : String → String
  getFromStdin : GetFromStdinParams → String
  loadError : Option String
  saveError : Option String

/-- The mutable world: the persisted store and the events recorded so far. -/
structure World where
  disk : Config
  events : List Event

/-- Append an event to the record. -/
def World.emit (w : World) (e : Event) : World := { w with events := w.events ++ [e] }

/-- Modelled from the spec: `generated.LoadConfig()`, `load() → store-or-error`; a fresh
load of the persisted store. -/
def LoadConfig (h : Host) (w : World) : Except String Config × World :=
  match h.loadError with
  | some e => (.error e, w.emit .loadConfig)
  | none => (.ok w.disk, w.emit .loadConfig)

/-- Modelled from the spec: `generated.SaveConfig(config)`, `save(store) → ok-or-error`;
the result is the returned error, if any. -/
def SaveConfig (h : Host) (w : World) (c : Config) : Option String × World :=
  match h.saveError with
  | some e => (some e, w.emit .saveConfig)
  | none => (none, { (w.emit .saveConfig) with disk := c })

/-- How a call ends: a returned value, `log.Fatalf` (the process exits), or a run-time
panic. -/
inductive Outcome where
  | ret (v : Value) : Outcome
  | fatal (msg : String) : Outcome
  | panic (msg : String) : Outcome
  deriving DecidableEq, Repr

/-! ## `AskQuestion`, `varReplaceFn` -/

/-- The parameters `AskQuestion` hands to `stdinutil.GetFromStdin` (lines 75-92). -/
def AskQuestion.params (var : Option Variable) : GetFromStdinParams :=
  match var with
  | none => { Question := "Please enter a value" }
  | some v =>
      let p : GetFromStdinParams :=
        match v.Question with
        | none => { Question := "Please enter a value" }
        | some q => { Question := q }
      let p := match v.Default with
        | some d => { p with DefaultValue := d }
        | none => p
      match v.RegexPattern with
      | some r => { p with ValidationRegexPattern := r }
      | none => p

/-- `AskQuestion(variable)`: builds the prompt parameters, reads the answer and converts
it (lines 74-106). -/
def AskQuestion (h : Host) (w : World) (var : Option Variable) : Value × World :=
  let params := AskQuestion.params var
  let configVal := h.getFromStdin params
  let w := w.emit (.getFromStdin params)
  if configVal = "true" then (.bool true, w)
  else if configVal = "false" then (.bool false, w)
  else
    match Atoi configVal with
    | some i => (.int i, w)
    | none => (.str configVal, w)

/-- `varReplaceFn(value)` (lines 28-67). -/
def varReplaceFn (h : Host) (w : World) (value : String) : Outcome × World :=
  match sliceToken value with
  | none => (.panic "slice bounds out of range", w)
  | some payload =>
    let varName := TrimSpace payload
    if h.getenv (VarEnvPrefix ++ ToUpper h.unicodeToUpper varName) ≠ "" then
      let retString := h.getenv (VarEnvPrefix ++ ToUpper h.unicodeToUpper varName)
      if retString = "true" then (.ret (.bool true), w)
      else if retString = "false" then (.ret (.bool false), w)
      else
        match Atoi retString with
        | some i => (.ret (.int i), w)
        | none => (.ret (.str retString), w)
    else
      match LoadConfig h w with
      | (.error err, w) => (.fatal ("Error reading generated config: " ++ err), w)
      | (.ok generatedConfig, w) =>
        match generatedConfig.GetActive.Vars value with
        | some configVal => (.ret configVal, w)
        | none =>
          let (answer, w) :=
            AskQuestion h w (some { Question := some ("Please enter a value for " ++ varName) })
          let generatedConfig := generatedConfig.setVar varName answer
          let w := w.emit (.writeVar varName answer)
          match SaveConfig h w generatedConfig with
          | (some err, w) => (.fatal ("Error saving generated config: " ++ err), w)
          | (none, w) => (.ret ((generatedConfig.GetActive.Vars value).getD .nil), w)

/-! ## `create_builder.go` -/

/-- `latest.KanikoConfig`: the fields read by `CreateBuilder`. -/
structure KanikoConfig where
  Namespace : Option String := none
  PullSecret : Option String := none
  deriving DecidableEq, Repr

/-- `latest.DockerConfig`: the field read by `CreateBuilder`. -/
structure DockerConfig where
  PreferMinikube : Option Bool := none
  deriving DecidableEq, Repr

/-- `latest.BuildConfig`: both variants are pointers and may be set at the same time. -/
structure BuildConfig where
  Kaniko : Option KanikoConfig := none
  Docker : Option DockerConfig := none
  deriving DecidableEq, Repr

/-- `latest.ImageConfig`: the fields read by `CreateBuilder`, each a pointer. -/
structure ImageConfig where
  Name : Option String
  Insecure : Option Bool := none
  Build : Option BuildConfig := none
  deriving DecidableEq, Repr

/-- Handle of a docker client returned by `dockerclient.NewClient`. -/
structure DockerClient where
  handle : Nat
  deriving DecidableEq, Repr

/-- Handle of the cluster client `*kubernetes.Clientset`. -/
structure Clientset where
  handle : Nat
  deriving DecidableEq, Repr

/-- Arguments of `kaniko.NewBuilder`, in the order of the call. -/
structure KanikoArgs where
  pullSecret : String
  imageName : String
  imageTag : String
  previousImageTag : String
  buildNamespace : String
  dockerClient : DockerClient
  kubectl : Clientset
  allowInsecurePush : Bool
  deriving DecidableEq, Repr

/-- Arguments of `docker.NewBuilder`, in the order of the call. -/
structure DockerArgs where
  client : DockerClient
  imageName : String
  imageTag : String
  deriving DecidableEq, Repr

/-- The two implementations of `builder.Interface`, each identified by the arguments it
was assembled from. -/
inductive Builder where
  | kaniko (args : KanikoArgs) : Builder
  | docker (args : DockerArgs) : Builder
  deriving DecidableEq, Repr

/-- Calls made to collaborators, in order. -/
inductive Call where
  | getDefaultNamespace : Call
  | newClient (preferMinikube : Bool) : Call
  | kanikoNewBuilder (args : KanikoArgs) : Call
  | dockerNewBuilder (args : DockerArgs) : Call
  deriving DecidableEq, Repr

/-- The collaborators of `CreateBuilder`: the result of `configutil.GetDefaultNamespace`,
of `dockerclient.NewClient(preferMinikube)`, and the error, if any, of the two builder
constructors. -/
structure BuildHost where
  GetDefaultNamespace : Except String String
  NewClient : Bool → Except String DockerClient
  kanikoNewBuilderError : KanikoArgs → Option String
  dockerNewBuilderError : DockerArgs → Option String

/-- Result of `CreateBuilder`: `(imageBuilder, nil)`, `(nil, err)`, or a panic on a nil
pointer dereference. -/
inductive BuildOutcome where
  | ok (b : Builder) : BuildOutcome
  | err (msg : String) : BuildOutcome
  | panic (msg : String) : BuildOutcome
  deriving DecidableEq, Repr

/-- `CreateBuilder(client, generatedConfig, imageConf, imageTag)` (lines 18-68), with the
calls it makes. -/
def CreateBuilder (h : BuildHost) (client : Clientset) (generatedConfig : Config)
    (imageConf : ImageConfig) (imageTag : String) : BuildOutcome × List Call :=
  match imageConf.Build.bind (fun b => b.Kaniko) with
  | some kaniko =>
    match h.GetDefaultNamespace with
    | .error _ => (.err "Error retrieving default namespace", [.getDefaultNamespace])
    | .ok defaultNamespace =>
      let buildNamespace :=
        match kaniko.Namespace with
        | some ns => if ns ≠ "" then ns else defaultNamespace
        | none => defaultNamespace
      let allowInsecurePush :=
        match imageConf.Insecure with
        | some b => b
        | none => false
      let pullSecret :=
        match kaniko.PullSecret with
        | some s => s
        | none => ""
      match h.NewClient false with
      | .error e =>
        (.err ("Error creating docker client: " ++ e), [.getDefaultNamespace, .newClient false])
      | .ok dockerClient =>
        match imageConf.Name with
        | none =>
          (.panic "invalid memory address or nil pointer dereference",
            [.getDefaultNamespace, .newClient false])
        | some name =>
          let args : KanikoArgs :=
            { pullSecret := pullSecret
              imageName := name
              imageTag := imageTag
              previousImageTag := (generatedConfig.GetActive.ImageTags name).getD ""
              buildNamespace := buildNamespace
              dockerClient := dockerClient
              kubectl := client
              allowInsecurePush := allowInsecurePush }
          let calls := [.getDefaultNamespace, .newClient false, .kanikoNewBuilder args]
          match h.kanikoNewBuilderError args with
          | some e => (.err ("Error creating kaniko builder: " ++ e), calls)
          | none => (.ok (.kaniko args), calls)
  | none =>
    let preferMinikube :=
      match imageConf.Build.bind (fun b => b.Docker) |>.bind (fun d => d.PreferMinikube) with
      | some b => b
      | none => true
    match h.NewClient preferMinikube with
    | .error e => (.err ("Error creating docker client: " ++ e), [.newClient preferMinikube])
    | .ok dockerClient =>
      match imageConf.Name with
      | none =>
        (.panic "invalid memory address or nil pointer dereference", [.newClient preferMinikube])
      | some name =>
        let args : DockerArgs := { client := dockerClient, imageName := name, imageTag := imageTag }
        let calls := [.newClient preferMinikube, .dockerNewBuilder args]
        match h.dockerNewBuilderError args with
        | some e => (.err ("Error creating docker builder: " ++ e), calls)
        | none => (.ok (.docker args), calls)

/-! ## Reference definitions used in the statements -/

/-- Type coercion as the specification words it: `"true"` and `"false"` become booleans,
a text that parses as a base-10 integer becomes that integer, anything else stays the
string it was. -/
def TypeCoercion (s : String) : Value :=
  if s = "true" then Value.bool true
  else if s = "false" then Value.bool false
  else
    match Atoi s with
    | some n => Value.int n
    | none => Value.str s

/-- The placeholder text `"$" + "\x7b" + body + "\x7d"`. -/
def token (body : String) : String := "$\x7b" ++ body ++ "\x7d"

/-- Modelled from the spec: what the tree walker `walk.Walk` (not part of the sources at
hand) does at a scalar string node `value` found under `key` when `resolveVars` runs it
with `varMatchFn` and `varReplaceFn`: the node is replaced by the output of the replace
function if the predicate matches, and is left as it is otherwise. -/
def walkScalar (h : Host) (w : World) (key value : String) : Outcome × World :=
  if varMatchFn key value then varReplaceFn h w value else (Outcome.ret (Value.str value), w)

/-- The world after the prompt path of `varReplaceFn`. -/
def afterPrompt (h : Host) (w : World) (body : String) : World :=
  let q : GetFromStdinParams := { Question := "Please enter a value for " ++ TrimSpace body }
  let a := TypeCoercion (h.getFromStdin q)
  { disk := if h.saveError = none then w.disk.setVar (TrimSpace body) a else w.disk
    events := w.events ++
      [Event.loadConfig, Event.getFromStdin q, Event.writeVar (TrimSpace body) a,
        Event.saveConfig] }

/-! ## Concrete hosts and stores used in the examples -/

/-- A host with the ASCII case mapping, the given environment, an operator who always
answers `answer`, and a persistence layer that does not fail. -/
def exampleHost (env : String → String) (answer : String) : Host :=
  { unicodeToUpper := Char.toUpper
    getenv := env
    getFromStdin := fun _ => answer
    loadError := none
    saveError := none }

/-- An environment in which exactly the variable `name` is set, to `val`. -/
def envWith (name val : String) : String → String :=
  fun k => if k = name then val else ""

/-- A store whose active profile holds the single variable `name`, with value `v`. -/
def storeWith (name : String) (v : Value) : World :=
  { disk :=
      { ActiveConfig := "default"
        active :=
          { Vars := fun k => if k = name then some v else none
            ImageTags := fun _ => none } }
    events := [] }

/-- Collaborators of `CreateBuilder` that all succeed, except that the cluster default
namespace is `defaultNamespace` (an error when it cannot be obtained). -/
def exampleBuildHost (defaultNamespace : Except String String) : BuildHost :=
  { GetDefaultNamespace := defaultNamespace
    NewClient := fun preferMinikube => Except.ok { handle := if preferMinikube then 1 else 0 }
    kanikoNewBuilderError := fun _ => none
    dockerNewBuilderError := fun _ => none }

/-- A generated config with no variables and no image tags. -/
def emptyConfig : Config :=
  { ActiveConfig := "default"
    active := { Vars := fun _ => none, ImageTags := fun _ => none } }

/-! ## Theorems -/

namespace Regex

theorem nullable_iff (r : Regex) : nullable r = true ↔ Lang r [] := by
  induction r with
  | nothing => simp [nullable, Lang]
  | empty => simp [nullable, Lang]
  | cls p => simp [nullable, Lang]
  | cat r s ihr ihs =>
    simp only [nullable, Lang, Bool.and_eq_true, ihr, ihs]
    constructor
    · rintro ⟨h1, h2⟩
      exact ⟨[], [], rfl, h1, h2⟩
    · rintro ⟨l₁, l₂, h, h1, h2⟩
      have h' := h.symm
      rw [List.append_eq_nil] at h'
      obtain ⟨rfl, rfl⟩ := h'
      exact ⟨h1, h2⟩
  | alt r s ihr ihs => simp [nullable, Lang, ihr, ihs]
  | star r _ =>
    simp only [nullable, Lang, true_iff]
    exact ⟨[], rfl, by simp⟩

theorem deriv_iff (r : Regex) (c : Char) (l : List Char) :
    Lang (deriv r c) l ↔ Lang r (c :: l) := by
  induction r generalizing l with
  | nothing => simp [deriv, Lang]
  | empty => simp [deriv, Lang]
  | cls p =>
    by_cases hp : p c = true
    · simp only [deriv, hp, if_true, Lang]
      constructor
      · rintro rfl
        exact ⟨c, hp, rfl⟩
      · rintro ⟨d, _, h⟩
        simp only [List.cons.injEq] at h
        exact h.2
    · simp only [deriv, hp, Lang]
      constructor
      · intro h
        simp at h
      · rintro ⟨d, hd, h⟩
        simp only [List.cons.injEq] at h
        obtain ⟨rfl, _⟩ := h
        exact absurd hd hp
  | cat r s ihr ihs =>
    have key : Lang (cat r s) (c :: l) ↔
        (Lang r [] ∧ Lang s (c :: l)) ∨
          ∃ l₁ l₂, l = l₁ ++ l₂ ∧ Lang r (c :: l₁) ∧ Lang s l₂ := by
      simp only [Lang]
      constructor
      · rintro ⟨l₁, l₂, h, h1, h2⟩
        cases l₁ with
        | nil =>
          left
          simp only [List.nil_append] at h
          subst h
          exact ⟨h1, h2⟩
        | cons a t =>
          right
          simp only [List.cons_append, List.cons.injEq] at h
          obtain ⟨rfl, rfl⟩ := h
          exact ⟨t, l₂, rfl, h1, h2⟩
      · rintro (⟨h1, h2⟩ | ⟨l₁, l₂, rfl, h1, h2⟩)
        · exact ⟨[], c :: l, rfl, h1, h2⟩
        · exact ⟨c :: l₁, l₂, rfl, h1, h2⟩
    rw [key]
    by_cases hn : nullable r = true
    · simp only [deriv, hn, if_true, Lang]
      have hn' := (nullable_iff r).1 hn
      constructor
      · rintro (⟨l₁, l₂, rfl, h1, h2⟩ | h)
        · exact Or.inr ⟨l₁, l₂, rfl, (ihr l₁).1 h1, h2⟩
        · exact Or.inl ⟨hn', (ihs l).1 h⟩
      · rintro (⟨_, h2⟩ | ⟨l₁, l₂, rfl, h1, h2⟩)
        · exact Or.inr ((ihs l).2 h2)
        · exact Or.inl ⟨l₁, l₂, rfl, (ihr l₁).2 h1, h2⟩
    · have hn' : ¬ Lang r [] := fun h => hn ((nullable_iff r).2 h)
      simp only [deriv, hn, Lang]
      constructor
      · rintro ⟨l₁, l₂, rfl, h1, h2⟩
        exact Or.inr ⟨l₁, l₂, rfl, (ihr l₁).1 h1, h2⟩
      · rintro (⟨h1, _⟩ | ⟨l₁, l₂, rfl, h1, h2⟩)
        · exact absurd h1 hn'
        · exact ⟨l₁, l₂, rfl, (ihr l₁).2 h1, h2⟩
  | alt r s ihr ihs => simp [deriv, Lang, ihr, ihs]
  | star r ih =>
    simp only [deriv, Lang]
    constructor
    · rintro ⟨l₁, l₂, rfl, h1, L, rfl, hL⟩
      refine ⟨(c :: l₁) :: L, by simp, ?_⟩
      intro y hy
      rcases List.mem_cons.1 hy with rfl | hy
      · exact ⟨(ih l₁).1 h1, by simp⟩
      · exact hL y hy
    · rintro ⟨L, h, hL⟩
      cases L with
      | nil => simp at h
      | cons y L =>
        have hy := hL y (List.mem_cons_self _ _)
        cases y with
        | nil => exact absurd rfl hy.2
        | cons a t =>
          simp only [List.flatten_cons, List.cons_append, List.cons.injEq] at h
          obtain ⟨rfl, rfl⟩ := h
          exact ⟨t, L.flatten, rfl, (ih t).2 hy.1, L, rfl,
            fun z hz => hL z (List.mem_cons_of_mem _ hz)⟩

theorem matchList_iff (r : Regex) (l : List Char) : matchList r l = true ↔ Lang r l := by
  induction l generalizing r with
  | nil => simpa [matchList] using nullable_iff r
  | cons c cs ih => simp only [matchList, ih, deriv_iff]

end Regex

namespace Regex

theorem lang_lit (c : Char) (l : List Char) : Lang (lit c) l ↔ l = [c] := by
  simp only [lit, Lang, beq_iff_eq]
  constructor
  · rintro ⟨d, rfl, rfl⟩
    rfl
  · rintro rfl
    exact ⟨c, rfl, rfl⟩

theorem lang_star_notLit (c : Char) (l : List Char) :
    Lang (star (notLit c)) l ↔ c ∉ l := by
  simp only [notLit, Lang, bne_iff_ne, ne_eq]
  constructor
  · rintro ⟨L, rfl, hL⟩ hc
    obtain ⟨y, hy, hcy⟩ := List.mem_flatten.1 hc
    obtain ⟨⟨d, hd, rfl⟩, _⟩ := hL y hy
    simp only [List.mem_singleton] at hcy
    exact hd hcy.symm
  · intro hc
    refine ⟨l.map (fun d => [d]), ?_, ?_⟩
    · clear hc
      induction l with
      | nil => rfl
      | cons a t ih => simp [← ih]
    · intro y hy
      obtain ⟨d, hd, rfl⟩ := List.mem_map.1 hy
      refine ⟨⟨d, ?_, rfl⟩, by simp⟩
      rintro rfl
      exact hc hd

theorem lang_plus_notLit (c : Char) (l : List Char) :
    Lang (plus (notLit c)) l ↔ l ≠ [] ∧ c ∉ l := by
  have hs := lang_star_notLit c
  simp only [plus, Lang] at hs ⊢
  constructor
  · rintro ⟨l₁, l₂, rfl, h1, h2⟩
    have h2' := (hs l₂).1 h2
    simp only [notLit, Lang, bne_iff_ne, ne_eq] at h1
    obtain ⟨d, hd, rfl⟩ := h1
    refine ⟨by simp, ?_⟩
    simp only [List.singleton_append, List.mem_cons, not_or]
    exact ⟨fun h => hd h.symm, h2'⟩
  · rintro ⟨hne, hc⟩
    cases l with
    | nil => exact absurd rfl hne
    | cons a t =>
      simp only [List.mem_cons, not_or] at hc
      refine ⟨[a], t, rfl, ?_, (hs t).2 hc.2⟩
      simp only [notLit, Lang, bne_iff_ne, ne_eq]
      exact ⟨a, fun h => hc.1 h.symm, rfl⟩

end Regex

theorem lang_VarMatchRegex (l : List Char) :
    Regex.Lang VarMatchRegex l ↔
      ∃ body : List Char, l = '$' :: '{' :: (body ++ ['}']) ∧ body ≠ [] ∧ '}' ∉ body := by
  simp only [VarMatchRegex]
  constructor
  · intro h
    simp only [Regex.Lang.eq_4] at h
    obtain ⟨a, r1, rfl, ha, b, r2, rfl, hb, body, e, rfl, hbody, he⟩ := h
    rw [Regex.lang_lit] at ha hb he
    subst ha hb he
    exact ⟨body, rfl, (Regex.lang_plus_notLit _ _).1 hbody⟩
  · rintro ⟨body, rfl, hbody⟩
    simp only [Regex.Lang.eq_4]
    exact ⟨['$'], _, rfl, (Regex.lang_lit _ _).2 rfl, ['{'], _, rfl, (Regex.lang_lit _ _).2 rfl,
      body, ['}'], rfl, (Regex.lang_plus_notLit _ _).2 hbody, (Regex.lang_lit _ _).2 rfl⟩

theorem varMatchFn_iff_data (key value : String) :
    varMatchFn key value = true ↔
      ∃ body : List Char, value.data = '$' :: '{' :: (body ++ ['}']) ∧ body ≠ [] ∧ '}' ∉ body := by
  simp only [varMatchFn, Regex.MatchString, Regex.matchList_iff, lang_VarMatchRegex]

theorem token_data (body : String) :
    (token body).data = '$' :: '\x7b' :: (body.data ++ ['\x7d']) := by
  simp [token, String.data_append]

theorem sliceToken_token (body : String) : sliceToken (token body) = some body := by
  have hd := token_data body
  have hsize : ¬ (token body).utf8ByteSize < 3 := by
    have : (token body).utf8ByteSize = String.utf8Len (token body).data := rfl
    rw [this, hd]
    simp only [String.utf8Len_cons, String.utf8Len_append, String.utf8Len_nil]
    have h1 : ('$' : Char).utf8Size = 1 := by decide
    have h2 : ('\x7b' : Char).utf8Size = 1 := by decide
    have h3 : ('\x7d' : Char).utf8Size = 1 := by decide
    omega
  simp only [sliceToken, hsize, if_false, hd, List.drop_succ_cons, List.drop_zero,
    List.dropLast_concat]

theorem TrimSpace_length_le (s : String) : (TrimSpace s).length ≤ s.length := by
  simp only [TrimSpace, String.length, List.length_reverse]
  exact le_trans (List.Sublist.length_le (List.dropWhile_sublist _))
    (by simpa using List.Sublist.length_le (List.dropWhile_sublist (l := s.data) isSpace))

theorem TrimSpace_ne_token (body : String) : TrimSpace body ≠ token body := by
  intro h
  have h1 := TrimSpace_length_le body
  have h2 : (token body).length = body.length + 3 := by
    show (token body).data.length = body.data.length + 3
    rw [token_data]
    simp only [List.length_cons, List.length_append, List.length_nil]
  rw [h, h2] at h1
  omega

theorem mem_TrimSpace (c : Char) (s : String) (h : c ∈ (TrimSpace s).data) : c ∈ s.data := by
  simp only [TrimSpace, List.mem_reverse] at h
  have h1 := (List.dropWhile_sublist isSpace).subset h
  rw [List.mem_reverse] at h1
  exact (List.dropWhile_sublist isSpace).subset h1

theorem varMatchFn_token (key body : String) (hb : body ≠ "") (hc : '\x7d' ∉ body.data) :
    varMatchFn key (token body) = true := by
  rw [varMatchFn_iff_data]
  refine ⟨body.data, token_data body, ?_, hc⟩
  intro h
  exact hb (String.ext h)

theorem varMatchFn_iff_token (key value : String) :
    varMatchFn key value = true ↔
      ∃ body : String, value = token body ∧ body ≠ "" ∧ '\x7d' ∉ body.data := by
  constructor
  · intro h
    obtain ⟨b, hv, hb, hc⟩ := (varMatchFn_iff_data key value).1 h
    refine ⟨String.mk b, ?_, ?_, hc⟩
    · apply String.ext
      rw [hv, token_data]
    · intro h'
      exact hb (by simpa using congrArg String.data h')
  · rintro ⟨body, rfl, hb, hc⟩
    exact varMatchFn_token key body hb hc

theorem varMatchFn_TrimSpace (key body : String) (hc : '\x7d' ∉ body.data) :
    varMatchFn key (TrimSpace body) = false := by
  rw [Bool.eq_false_iff]
  intro h
  obtain ⟨b, hv, _, _⟩ := (varMatchFn_iff_data key _).1 h
  apply hc
  apply mem_TrimSpace
  rw [hv]
  exact List.mem_cons_of_mem _ (List.mem_cons_of_mem _
    (List.mem_append_right _ (List.mem_singleton_self _)))

theorem AskQuestion_eq (h : Host) (w : World) (var : Option Variable) :
    AskQuestion h w var =
      (TypeCoercion (h.getFromStdin (AskQuestion.params var)),
        w.emit (Event.getFromStdin (AskQuestion.params var))) := by
  unfold AskQuestion TypeCoercion
  simp only []
  split_ifs
  · rfl
  · rfl
  · cases hA : Atoi (h.getFromStdin (AskQuestion.params var)) <;> rfl

theorem AskQuestion_question (h : Host) (w : World) (q : String) :
    AskQuestion h w (some { Question := some q }) =
      (TypeCoercion (h.getFromStdin { Question := q }),
        w.emit (Event.getFromStdin { Question := q })) :=
  AskQuestion_eq h w _

theorem varReplaceFn_env (h : Host) (w : World) (body : String)
    (hne : h.getenv (VarEnvPrefix ++ ToUpper h.unicodeToUpper (TrimSpace body)) ≠ "") :
    varReplaceFn h w (token body) =
      (Outcome.ret
        (TypeCoercion (h.getenv (VarEnvPrefix ++ ToUpper h.unicodeToUpper (TrimSpace body)))),
        w) := by
  unfold varReplaceFn TypeCoercion
  rw [sliceToken_token]
  simp only [ne_eq, hne, not_false_eq_true, if_true]
  split_ifs
  · rfl
  · rfl
  · cases hA : Atoi (h.getenv (VarEnvPrefix ++ ToUpper h.unicodeToUpper (TrimSpace body))) <;>
      rfl

theorem varReplaceFn_loadError (h : Host) (w : World) (body e : String)
    (henv : h.getenv (VarEnvPrefix ++ ToUpper h.unicodeToUpper (TrimSpace body)) = "")
    (hl : h.loadError = some e) :
    varReplaceFn h w (token body) =
      (Outcome.fatal ("Error reading generated config: " ++ e), w.emit Event.loadConfig) := by
  unfold varReplaceFn
  rw [sliceToken_token]
  simp only [ne_eq, henv, not_true_eq_false, if_false, LoadConfig, hl]

theorem varReplaceFn_hit (h : Host) (w : World) (body : String) (v : Value)
    (henv : h.getenv (VarEnvPrefix ++ ToUpper h.unicodeToUpper (TrimSpace body)) = "")
    (hl : h.loadError = none) (hv : w.disk.GetActive.Vars (token body) = some v) :
    varReplaceFn h w (token body) = (Outcome.ret v, w.emit Event.loadConfig) := by
  unfold varReplaceFn
  rw [sliceToken_token]
  simp only [ne_eq, henv, not_true_eq_false, if_false, LoadConfig, hl, hv]

theorem varReplaceFn_miss (h : Host) (w : World) (body : String)
    (henv : h.getenv (VarEnvPrefix ++ ToUpper h.unicodeToUpper (TrimSpace body)) = "")
    (hl : h.loadError = none) (hv : w.disk.GetActive.Vars (token body) = none) :
    varReplaceFn h w (token body) =
      ((match h.saveError with
        | some e => Outcome.fatal ("Error saving generated config: " ++ e)
        | none => Outcome.ret Value.nil), afterPrompt h w body) := by
  unfold varReplaceFn
  rw [sliceToken_token]
  simp only [ne_eq, henv, not_true_eq_false, if_false, LoadConfig, hl, hv,
    AskQuestion_question, SaveConfig, afterPrompt]
  cases hs : h.saveError with
  | some e =>
    simp [World.emit]
  | none =>
    have hne : token body ≠ TrimSpace body := fun h' => TrimSpace_ne_token body h'.symm
    simp only [Config.GetActive] at hv
    simp [World.emit, Config.setVar, Config.GetActive, setKey, hne, hv]

theorem TypeCoercion_cases (s : String) :
    (s = "true" → TypeCoercion s = Value.bool true) ∧
    (s = "false" → TypeCoercion s = Value.bool false) ∧
    (∀ n, Atoi s = some n → TypeCoercion s = Value.int n) ∧
    (s ≠ "true" → s ≠ "false" → Atoi s = none → TypeCoercion s = Value.str s) := by
  refine ⟨?_, ?_, ?_, ?_⟩
  · rintro rfl
    rfl
  · rintro rfl
    rfl
  · intro n hn
    have h1 : s ≠ "true" := by
      rintro rfl
      have h0 : Atoi "true" = none := by decide
      rw [h0] at hn
      exact Option.noConfusion hn
    have h2 : s ≠ "false" := by
      rintro rfl
      have h0 : Atoi "false" = none := by decide
      rw [h0] at hn
      exact Option.noConfusion hn
    simp only [TypeCoercion, h1, h2, if_false, hn]
  · intro h1 h2 hn
    simp only [TypeCoercion, h1, h2, if_false, hn]

/-- C1: type coercion is total and equals the reference definition `TypeCoercion`: for
every raw string `s`, `AskQuestion` applied to the answer `s` and `varReplaceFn` applied
to a token whose (non-empty) environment value is `s` return `TypeCoercion s`, which is
boolean true for `"true"`, boolean false for `"false"`, the integer `n` when
`strconv.Atoi` yields `n`, and the string `s` otherwise; `"3"` gives the integer 3 and
`"3.5"` the string `"3.5"`. -/
theorem C1_type_coercion (h : Host) (w : World) (var : Option Variable) (s : String) :
    (AskQuestion { h with getFromStdin := fun _ => s } w var).1 = TypeCoercion s ∧
    (∀ body : String, s ≠ "" →
      (varReplaceFn { h with getenv := fun _ => s } w (token body)).1 =
        Outcome.ret (TypeCoercion s)) ∧
    ((s = "true" → TypeCoercion s = Value.bool true) ∧
      (s = "false" → TypeCoercion s = Value.bool false) ∧
      (∀ n, Atoi s = some n → TypeCoercion s = Value.int n) ∧
      (s ≠ "true" → s ≠ "false" → Atoi s = none → TypeCoercion s = Value.str s)) ∧
    (AskQuestion { h with getFromStdin := fun _ => "3" } w var).1 = Value.int 3 ∧
    (AskQuestion { h with getFromStdin := fun _ => "3.5" } w var).1 = Value.str "3.5" := by
  refine ⟨?_, ?_, TypeCoercion_cases s, ?_, ?_⟩
  · rw [AskQuestion_eq]
  · intro body hs
    rw [varReplaceFn_env _ _ _ hs]
  · rw [AskQuestion_eq]
    show TypeCoercion "3" = Value.int 3
    decide
  · rw [AskQuestion_eq]
    show TypeCoercion "3.5" = Value.str "3.5"
    decide

/-- Witness for C1: the environment value `"3"` of the token `$\x7bX\x7d` is returned as
the integer 3. -/
theorem C1_type_coercion_witness :
    (varReplaceFn { exampleHost (fun _ => "") "" with getenv := fun _ => "3" }
        (storeWith "X" (Value.str "old")) (token "X")).1 = Outcome.ret (Value.int 3) :=
  (C1_type_coercion (exampleHost (fun _ => "") "") (storeWith "X" (Value.str "old")) none
    "3").2.1 "X" (by decide)

/-- C2: exact-match-only rule.  `varMatchFn key value` is true exactly when the whole
value is `"$\x7b" ++ body ++ "\x7d"` for a non-empty `body` without the character
`\x7d`; the key plays no role; the value `prefix-$\x7bX\x7d-suffix` is not matched, and
the walker leaves such a scalar as it is, whatever the environment and the store. -/
theorem C2_exact_match_only (key value : String) :
    (varMatchFn key value = true ↔
      ∃ body : String, value = "$\x7b" ++ body ++ "\x7d" ∧ body ≠ "" ∧
        '\x7d' ∉ body.data) ∧
    (∀ key' : String, varMatchFn key' value = varMatchFn key value) ∧
    varMatchFn key "prefix-$\x7bX\x7d-suffix" = false ∧
    (∀ (h : Host) (w : World),
      walkScalar h w key "prefix-$\x7bX\x7d-suffix" =
        (Outcome.ret (Value.str "prefix-$\x7bX\x7d-suffix"), w)) := by
  have hm : varMatchFn key "prefix-$\x7bX\x7d-suffix" = false := by
    show varMatchFn "" "prefix-$\x7bX\x7d-suffix" = false
    decide
  refine ⟨varMatchFn_iff_token key value, fun _ => rfl, hm, ?_⟩
  intro h w
  simp only [walkScalar, hm, Bool.false_eq_true, if_false]

/-- C3: environment precedence.  If the environment variable named
`"DEVSPACE_VAR_" ++ uppercase (trim body)` has a non-empty value `e`, then
`varReplaceFn` applied to the token with payload `body` returns the coerced `e` and
leaves the world as it was, whatever the store holds.  With `DEVSPACE_VAR_FOO = "true"`
and the store entry `foo = 5` the token `$\x7bFOO\x7d` resolves to boolean true; with
`DEVSPACE_VAR_TAG = "7"` the token `$\x7bTAG\x7d` resolves to the integer 7, and with
`"v7"` to the string `"v7"`. -/
theorem C3_environment_precedence (h : Host) (w : World) (body e : String)
    (he : h.getenv ("DEVSPACE_VAR_" ++ ToUpper h.unicodeToUpper (TrimSpace body)) = e)
    (hne : e ≠ "") :
    varReplaceFn h w ("$\x7b" ++ body ++ "\x7d") = (Outcome.ret (TypeCoercion e), w) ∧
    (varReplaceFn (exampleHost (envWith "DEVSPACE_VAR_FOO" "true") "")
        (storeWith "foo" (Value.int 5)) "$\x7bFOO\x7d").1 = Outcome.ret (Value.bool true) ∧
    (∀ w' : World,
      walkScalar (exampleHost (envWith "DEVSPACE_VAR_TAG" "7") "") w' "tag" "$\x7bTAG\x7d" =
        (Outcome.ret (Value.int 7), w')) ∧
    (∀ w' : World,
      walkScalar (exampleHost (envWith "DEVSPACE_VAR_TAG" "v7") "") w' "tag" "$\x7bTAG\x7d" =
        (Outcome.ret (Value.str "v7"), w')) := by
  refine ⟨?_, by decide, ?_, ?_⟩
  · subst he
    exact varReplaceFn_env h w body hne
  · intro w'
    have hm : varMatchFn "tag" "$\x7bTAG\x7d" = true := by decide
    simp only [walkScalar, hm, if_true]
    exact varReplaceFn_env _ w' "TAG" (by decide)
  · intro w'
    have hm : varMatchFn "tag" "$\x7bTAG\x7d" = true := by decide
    simp only [walkScalar, hm, if_true]
    exact varReplaceFn_env _ w' "TAG" (by decide)

/-- Witness for C3: `DEVSPACE_VAR_FOO = "true"` wins over the store entries `foo = 5`
and leaves the store untouched. -/
theorem C3_environment_precedence_witness :
    varReplaceFn (exampleHost (envWith "DEVSPACE_VAR_FOO" "true") "")
        (storeWith "foo" (Value.int 5)) "$\x7bFOO\x7d" =
      (Outcome.ret (TypeCoercion "true"), storeWith "foo" (Value.int 5)) :=
  (C3_environment_precedence (exampleHost (envWith "DEVSPACE_VAR_FOO" "true") "")
    (storeWith "foo" (Value.int 5)) "FOO" "true" (by decide) (by decide)).1

/-- C4 (defect in the code): the store lookup of `varReplaceFn` reads the key
`$\x7bFOO\x7d`, the full token, and not the variable name `FOO`.  With an empty
environment and the store entry `FOO = 5`, resolving `$\x7bFOO\x7d` does not return 5:
the operator is prompted and the call returns the `nil` value.  Only an entry stored
under the full token text is returned as it is. -/
theorem C4_store_lookup_reads_full_token :
    (storeWith "FOO" (Value.int 5)).disk.GetActive.Vars (TrimSpace "FOO") =
        some (Value.int 5) ∧
    varMatchFn "" "$\x7bFOO\x7d" = true ∧
    (varReplaceFn (exampleHost (fun _ => "") "x") (storeWith "FOO" (Value.int 5))
        "$\x7bFOO\x7d").1 = Outcome.ret Value.nil ∧
    (varReplaceFn (exampleHost (fun _ => "") "x") (storeWith "FOO" (Value.int 5))
        "$\x7bFOO\x7d").2.events =
      [Event.loadConfig,
        Event.getFromStdin { Question := "Please enter a value for FOO" },
        Event.writeVar "FOO" (Value.str "x"), Event.saveConfig] ∧
    (varReplaceFn (exampleHost (fun _ => "") "x") (storeWith "$\x7bFOO\x7d" (Value.int 5))
        "$\x7bFOO\x7d").1 = Outcome.ret (Value.int 5) ∧
    (varReplaceFn (exampleHost (fun _ => "") "x") (storeWith "$\x7bFOO\x7d" (Value.int 5))
        "$\x7bFOO\x7d").2.events = [Event.loadConfig] := by
  decide

/-- C5 (defect in the code): on the prompt path `varReplaceFn` asks once, writes the
coerced answer under the variable name and saves the store, but then returns
`currentConfig.Vars[value]`, read under the full token text, which is the `nil` value
and not the answer.  With an empty environment, no store entry for `FOO` and the answer
`"42"`, the store receives `FOO = 42` and the call returns `nil`. -/
theorem C5_prompt_path_returns_nil :
    (storeWith "BAR" (Value.int 1)).disk.GetActive.Vars "FOO" = none ∧
    (storeWith "BAR" (Value.int 1)).disk.GetActive.Vars "$\x7bFOO\x7d" = none ∧
    (varReplaceFn (exampleHost (fun _ => "") "42") (storeWith "BAR" (Value.int 1))
        "$\x7bFOO\x7d").2.events =
      [Event.loadConfig,
        Event.getFromStdin { Question := "Please enter a value for FOO" },
        Event.writeVar "FOO" (Value.int 42), Event.saveConfig] ∧
    (varReplaceFn (exampleHost (fun _ => "") "42") (storeWith "BAR" (Value.int 1))
        "$\x7bFOO\x7d").2.disk.GetActive.Vars "FOO" = some (Value.int 42) ∧
    (varReplaceFn (exampleHost (fun _ => "") "42") (storeWith "BAR" (Value.int 1))
        "$\x7bFOO\x7d").1 = Outcome.ret Value.nil ∧
    (varReplaceFn (exampleHost (fun _ => "") "42") (storeWith "BAR" (Value.int 1))
        "$\x7bFOO\x7d").1 ≠ Outcome.ret (TypeCoercion "42") := by
  decide

theorem varReplaceFn_frame (h : Host) (w : World) (body : String) :
    ((varReplaceFn h w (token body)).2.disk = w.disk ∧
      ((varReplaceFn h w (token body)).2.events = w.events ∨
        (varReplaceFn h w (token body)).2.events = w.events ++ [Event.loadConfig])) ∨
    ∃ (p : GetFromStdinParams) (a : Value),
      a = TypeCoercion (h.getFromStdin p) ∧
      (varReplaceFn h w (token body)).2.events =
        w.events ++ [Event.loadConfig, Event.getFromStdin p,
          Event.writeVar (TrimSpace body) a, Event.saveConfig] ∧
      ((varReplaceFn h w (token body)).2.disk = w.disk ∨
        (varReplaceFn h w (token body)).2.disk = w.disk.setVar (TrimSpace body) a) := by
  by_cases henv : h.getenv (VarEnvPrefix ++ ToUpper h.unicodeToUpper (TrimSpace body)) = ""
  · cases hl : h.loadError with
    | some e =>
      rw [varReplaceFn_loadError h w body e henv hl]
      exact Or.inl ⟨rfl, Or.inr rfl⟩
    | none =>
      cases hv : w.disk.GetActive.Vars (token body) with
      | some v =>
        rw [varReplaceFn_hit h w body v henv hl hv]
        exact Or.inl ⟨rfl, Or.inr rfl⟩
      | none =>
        rw [varReplaceFn_miss h w body henv hl hv]
        refine Or.inr ⟨_, _, rfl, rfl, ?_⟩
        simp only [afterPrompt]
        split_ifs
        · exact Or.inr rfl
        · exact Or.inl rfl
  · rw [varReplaceFn_env h w body henv]
    exact Or.inl ⟨rfl, Or.inl rfl⟩

/-- C9: store frame.  For the token with payload `body`: when the environment override is
non-empty the world is left exactly as it was (no load, no prompt, no write, no save);
when the override is empty and the store lookup (which reads the full token text) hits,
the persisted store is unchanged and the only step recorded is the load; and in every case either the persisted store is
unchanged and at most a load was recorded, or the recorded steps are load, prompt, write
of the coerced answer, save, in this order, so a write comes only after the prompt has
returned its answer. -/
theorem C9_store_frame (h : Host) (w : World) (body : String) :
    (h.getenv ("DEVSPACE_VAR_" ++ ToUpper h.unicodeToUpper (TrimSpace body)) ≠ "" →
      (varReplaceFn h w (token body)).2 = w) ∧
    (h.getenv ("DEVSPACE_VAR_" ++ ToUpper h.unicodeToUpper (TrimSpace body)) = "" →
      h.loadError = none →
      ∀ v, w.disk.GetActive.Vars (token body) = some v →
        (varReplaceFn h w (token body)).2.disk = w.disk ∧
        (varReplaceFn h w (token body)).2.events = w.events ++ [Event.loadConfig]) ∧
    (((varReplaceFn h w (token body)).2.disk = w.disk ∧
      ((varReplaceFn h w (token body)).2.events = w.events ∨
        (varReplaceFn h w (token body)).2.events = w.events ++ [Event.loadConfig])) ∨
    ∃ (p : GetFromStdinParams) (a : Value),
      a = TypeCoercion (h.getFromStdin p) ∧
      (varReplaceFn h w (token body)).2.events =
        w.events ++ [Event.loadConfig, Event.getFromStdin p,
          Event.writeVar (TrimSpace body) a, Event.saveConfig] ∧
      ((varReplaceFn h w (token body)).2.disk = w.disk ∨
        (varReplaceFn h w (token body)).2.disk = w.disk.setVar (TrimSpace body) a)) := by
  refine ⟨?_, ?_, varReplaceFn_frame h w body⟩
  · intro hne
    rw [varReplaceFn_env h w body hne]
  · intro henv hl v hv
    rw [varReplaceFn_hit h w body v henv hl hv]
    exact ⟨rfl, rfl⟩

/-- Witness for C9: with `DEVSPACE_VAR_FOO = "true"` the resolution of `$\x7bFOO\x7d`
leaves the world as it was; with an empty environment and a store entry under the full
token text, the store is unchanged and only the load is recorded. -/
theorem C9_store_frame_witness :
    (varReplaceFn (exampleHost (envWith "DEVSPACE_VAR_FOO" "true") "x")
        (storeWith "foo" (Value.int 5)) (token "FOO")).2 = storeWith "foo" (Value.int 5) ∧
    ((varReplaceFn (exampleHost (fun _ => "") "x")
        (storeWith "$\x7bFOO\x7d" (Value.int 5)) (token "FOO")).2.disk =
          (storeWith "$\x7bFOO\x7d" (Value.int 5)).disk ∧
      (varReplaceFn (exampleHost (fun _ => "") "x")
        (storeWith "$\x7bFOO\x7d" (Value.int 5)) (token "FOO")).2.events =
          (storeWith "$\x7bFOO\x7d" (Value.int 5)).events ++ [Event.loadConfig]) :=
  ⟨(C9_store_frame (exampleHost (envWith "DEVSPACE_VAR_FOO" "true") "x")
      (storeWith "foo" (Value.int 5)) "FOO").1 (by decide),
    (C9_store_frame (exampleHost (fun _ => "") "x")
      (storeWith "$\x7bFOO\x7d" (Value.int 5)) "FOO").2.1 (by decide) rfl (Value.int 5)
      (by decide)⟩

theorem setVar_no_token_keys (c : Config) (body : String) (a : Value)
    (hc : '\x7d' ∉ body.data)
    (hkeys : ∀ k, varMatchFn "" k = true → c.GetActive.Vars k = none) :
    ∀ k, varMatchFn "" k = true → (c.setVar (TrimSpace body) a).GetActive.Vars k = none := by
  intro k hk
  have hne : k ≠ TrimSpace body := by
    rintro rfl
    rw [varMatchFn_TrimSpace "" body hc] at hk
    exact Bool.noConfusion hk
  have := hkeys k hk
  simp only [Config.GetActive] at this
  simp only [Config.setVar, Config.GetActive, setKey, hne, if_false, this]

/-- C10: store key inconsistency.  For the placeholder token with payload `body`, the key
under which the prompt answer is written (the trimmed name) differs from the key read for
cached answers (the full token) and is never itself a placeholder token.  Hence, from a
store none of whose `vars` keys is placeholder-shaped, with an empty environment override
and a store that loads, the resolution misses the cache and prompts; when the store is
saved, its keys are still free of placeholder-shaped strings, and resolving the same
token again prompts again. -/
theorem C10_store_key_inconsistency (h : Host) (w : World) (body : String)
    (hb : body ≠ "") (hc : '\x7d' ∉ body.data)
    (henv : h.getenv ("DEVSPACE_VAR_" ++ ToUpper h.unicodeToUpper (TrimSpace body)) = "")
    (hl : h.loadError = none)
    (hkeys : ∀ k, varMatchFn "" k = true → w.disk.GetActive.Vars k = none) :
    varMatchFn "" (token body) = true ∧
    TrimSpace body ≠ token body ∧
    (∀ key, varMatchFn key (TrimSpace body) = false) ∧
    (varReplaceFn h w (token body)).2.events =
      w.events ++
        [Event.loadConfig,
          Event.getFromStdin { Question := "Please enter a value for " ++ TrimSpace body },
          Event.writeVar (TrimSpace body)
            (TypeCoercion
              (h.getFromStdin { Question := "Please enter a value for " ++ TrimSpace body })),
          Event.saveConfig] ∧
    (h.saveError = none →
      (varReplaceFn h w (token body)).2.disk.GetActive.Vars (TrimSpace body) =
        some (TypeCoercion
          (h.getFromStdin { Question := "Please enter a value for " ++ TrimSpace body })) ∧
      (∀ k, varMatchFn "" k = true →
        (varReplaceFn h w (token body)).2.disk.GetActive.Vars k = none) ∧
      (varReplaceFn h (varReplaceFn h w (token body)).2 (token body)).2.events =
        (varReplaceFn h w (token body)).2.events ++
          [Event.loadConfig,
            Event.getFromStdin { Question := "Please enter a value for " ++ TrimSpace body },
            Event.writeVar (TrimSpace body)
              (TypeCoercion
                (h.getFromStdin
                  { Question := "Please enter a value for " ++ TrimSpace body })),
            Event.saveConfig]) := by
  have ht := varMatchFn_token "" body hb hc
  have hmiss := varReplaceFn_miss h w body henv hl (hkeys _ ht)
  refine ⟨ht, TrimSpace_ne_token body, fun key => varMatchFn_TrimSpace key body hc, ?_, ?_⟩
  · rw [hmiss]
    rfl
  · intro hs
    have hdisk : (afterPrompt h w body).disk =
        w.disk.setVar (TrimSpace body)
          (TypeCoercion
            (h.getFromStdin { Question := "Please enter a value for " ++ TrimSpace body })) := by
      simp only [afterPrompt, hs, if_true]
    have hkeys' : ∀ k, varMatchFn "" k = true →
        (afterPrompt h w body).disk.GetActive.Vars k = none := by
      rw [hdisk]
      exact setVar_no_token_keys w.disk body _ hc hkeys
    rw [hmiss]
    refine ⟨?_, hkeys', ?_⟩
    · show (afterPrompt h w body).disk.GetActive.Vars (TrimSpace body) = _
      rw [hdisk]
      simp only [Config.setVar, Config.GetActive, setKey, if_true]
    · rw [varReplaceFn_miss h (afterPrompt h w body) body henv hl (hkeys' _ ht)]
      rfl

/-- Witness for C10: from the store holding only `foo = 5`, with an empty environment
and the answer `"x"`, the token `$\x7bFOO\x7d` is prompted for, and prompted for again
after its answer was saved under `FOO`. -/
theorem C10_store_key_inconsistency_witness :
    (varReplaceFn (exampleHost (fun _ => "") "x")
        (varReplaceFn (exampleHost (fun _ => "") "x") (storeWith "foo" (Value.int 5))
          (token "FOO")).2 (token "FOO")).2.events =
      (varReplaceFn (exampleHost (fun _ => "") "x") (storeWith "foo" (Value.int 5))
          (token "FOO")).2.events ++
        [Event.loadConfig,
          Event.getFromStdin { Question := "Please enter a value for " ++ TrimSpace "FOO" },
          Event.writeVar (TrimSpace "FOO")
            (TypeCoercion
              ((exampleHost (fun _ => "") "x").getFromStdin
                { Question := "Please enter a value for " ++ TrimSpace "FOO" })),
          Event.saveConfig] :=
  ((C10_store_key_inconsistency (exampleHost (fun _ => "") "x")
    (storeWith "foo" (Value.int 5)) "FOO" (by decide) (by decide) (by decide) rfl
    (by
      intro k hk
      have hne : k ≠ "foo" := by
        rintro rfl
        exact absurd hk (by decide)
      simp only [storeWith, Config.GetActive, hne, if_false])).2.2.2.2 rfl).2.2

theorem CreateBuilder_kaniko (h : BuildHost) (client : Clientset) (generatedConfig : Config)
    (imageConf : ImageConfig) (imageTag : String) (b : BuildConfig) (k : KanikoConfig)
    (hb : imageConf.Build = some b) (hk : b.Kaniko = some k) :
    CreateBuilder h client generatedConfig imageConf imageTag =
      match h.GetDefaultNamespace with
      | .error _ => (.err "Error retrieving default namespace", [.getDefaultNamespace])
      | .ok defaultNamespace =>
        match h.NewClient false with
        | .error e =>
          (.err ("Error creating docker client: " ++ e), [.getDefaultNamespace, .newClient false])
        | .ok dockerClient =>
          match imageConf.Name with
          | none =>
            (.panic "invalid memory address or nil pointer dereference",
              [.getDefaultNamespace, .newClient false])
          | some name =>
            let args : KanikoArgs :=
              { pullSecret := k.PullSecret.getD ""
                imageName := name
                imageTag := imageTag
                previousImageTag := (generatedConfig.GetActive.ImageTags name).getD ""
                buildNamespace :=
                  match k.Namespace with
                  | some ns => if ns ≠ "" then ns else defaultNamespace
                  | none => defaultNamespace
                dockerClient := dockerClient
                kubectl := client
                allowInsecurePush := imageConf.Insecure.getD false }
            match h.kanikoNewBuilderError args with
            | some e =>
              (.err ("Error creating kaniko builder: " ++ e),
                [.getDefaultNamespace, .newClient false, .kanikoNewBuilder args])
            | none =>
              (.ok (.kaniko args),
                [.getDefaultNamespace, .newClient false, .kanikoNewBuilder args]) := by
  unfold CreateBuilder
  simp only [hb, hk, Option.bind]
  cases h.GetDefaultNamespace with
  | error e => rfl
  | ok d =>
    cases h.NewClient false with
    | error e => rfl
    | ok dc =>
      cases imageConf.Name with
      | none => rfl
      | some name =>
        cases hP : k.PullSecret <;> cases hI : imageConf.Insecure <;> rfl

theorem CreateBuilder_docker (h : BuildHost) (client : Clientset) (generatedConfig : Config)
    (imageConf : ImageConfig) (imageTag : String)
    (hk : imageConf.Build.bind (fun b => b.Kaniko) = none) :
    CreateBuilder h client generatedConfig imageConf imageTag =
      let preferMinikube :=
        ((imageConf.Build.bind (fun b => b.Docker)).bind (fun d => d.PreferMinikube)).getD true
      match h.NewClient preferMinikube with
      | .error e => (.err ("Error creating docker client: " ++ e), [.newClient preferMinikube])
      | .ok dockerClient =>
        match imageConf.Name with
        | none =>
          (.panic "invalid memory address or nil pointer dereference",
            [.newClient preferMinikube])
        | some name =>
          let args : DockerArgs :=
            { client := dockerClient, imageName := name, imageTag := imageTag }
          match h.dockerNewBuilderError args with
          | some e =>
            (.err ("Error creating docker builder: " ++ e),
              [.newClient preferMinikube, .dockerNewBuilder args])
          | none => (.ok (.docker args), [.newClient preferMinikube, .dockerNewBuilder args]) := by
  unfold CreateBuilder
  simp only [hk]
  cases hpm : (imageConf.Build.bind (fun b => b.Docker)).bind (fun d => d.PreferMinikube) <;>
    rfl

theorem append_ne_of_prefix_ne (p q e : String)
    (hpq : q.data.take p.data.length ≠ p.data) : p ++ e ≠ q := by
  intro heq
  apply hpq
  rw [← heq, String.data_append, List.take_left']
  rfl

/-- C6: builder precedence.  When `build.kaniko` is present, whatever `build.docker`
holds, `CreateBuilder` takes the Kaniko branch: its first call asks for the default
namespace, it only asks for a docker client with `preferMinikube = false` and only calls
the Kaniko constructor, it never returns a Docker builder, and when the collaborators
succeed (and the image has a name) it returns the Kaniko builder for the image name and
tag.  A Docker builder is returned only when `build` is absent or `build.kaniko` is
absent. -/
theorem C6_builder_precedence (h : BuildHost) (client : Clientset) (generatedConfig : Config)
    (imageConf : ImageConfig) (imageTag : String) :
    (∀ (b : BuildConfig) (k : KanikoConfig), imageConf.Build = some b → b.Kaniko = some k →
      (CreateBuilder h client generatedConfig imageConf imageTag).2.head? =
          some Call.getDefaultNamespace ∧
      (∀ c ∈ (CreateBuilder h client generatedConfig imageConf imageTag).2,
        c = Call.getDefaultNamespace ∨ c = Call.newClient false ∨
          ∃ a, c = Call.kanikoNewBuilder a) ∧
      (∀ args, (CreateBuilder h client generatedConfig imageConf imageTag).1 ≠
          BuildOutcome.ok (Builder.docker args)) ∧
      (∀ ns dc name, h.GetDefaultNamespace = Except.ok ns → h.NewClient false = Except.ok dc →
        imageConf.Name = some name → (∀ a, h.kanikoNewBuilderError a = none) →
        ∃ args, (CreateBuilder h client generatedConfig imageConf imageTag).1 =
            BuildOutcome.ok (Builder.kaniko args) ∧
          args.imageName = name ∧ args.imageTag = imageTag ∧ args.dockerClient = dc ∧
          args.kubectl = client)) ∧
    (∀ args, (CreateBuilder h client generatedConfig imageConf imageTag).1 =
        BuildOutcome.ok (Builder.docker args) →
      imageConf.Build = none ∨ ∃ b, imageConf.Build = some b ∧ b.Kaniko = none) := by
  have key : ∀ (b : BuildConfig) (k : KanikoConfig), imageConf.Build = some b →
      b.Kaniko = some k →
      (CreateBuilder h client generatedConfig imageConf imageTag).2.head? =
          some Call.getDefaultNamespace ∧
      (∀ c ∈ (CreateBuilder h client generatedConfig imageConf imageTag).2,
        c = Call.getDefaultNamespace ∨ c = Call.newClient false ∨
          ∃ a, c = Call.kanikoNewBuilder a) ∧
      (∀ args, (CreateBuilder h client generatedConfig imageConf imageTag).1 ≠
          BuildOutcome.ok (Builder.docker args)) ∧
      (∀ ns dc name, h.GetDefaultNamespace = Except.ok ns → h.NewClient false = Except.ok dc →
        imageConf.Name = some name → (∀ a, h.kanikoNewBuilderError a = none) →
        ∃ args, (CreateBuilder h client generatedConfig imageConf imageTag).1 =
            BuildOutcome.ok (Builder.kaniko args) ∧
          args.imageName = name ∧ args.imageTag = imageTag ∧ args.dockerClient = dc ∧
          args.kubectl = client) := by
    intro b k hb hk
    rw [CreateBuilder_kaniko h client generatedConfig imageConf imageTag b k hb hk]
    refine ⟨?_, ?_, ?_, ?_⟩
    · cases h.GetDefaultNamespace with
      | error e => rfl
      | ok d =>
        cases h.NewClient false with
        | error e => rfl
        | ok dc =>
          cases imageConf.Name with
          | none => rfl
          | some name =>
            simp only []
            split <;> rfl
    · cases h.GetDefaultNamespace with
      | error e => simp
      | ok d =>
        cases h.NewClient false with
        | error e => simp
        | ok dc =>
          cases imageConf.Name with
          | none => simp
          | some name =>
            simp only []
            split <;> simp
    · intro args
      cases h.GetDefaultNamespace with
      | error e => simp
      | ok d =>
        cases h.NewClient false with
        | error e => simp
        | ok dc =>
          cases imageConf.Name with
          | none => simp
          | some name =>
            simp only []
            split <;> simp
    · intro ns dc name hG hN hName hK
      simp only [hG, hN, hName, hK]
      exact ⟨_, rfl, rfl, rfl, rfl, rfl⟩
  refine ⟨key, ?_⟩
  intro args hres
  cases hB : imageConf.Build with
  | none => exact Or.inl rfl
  | some b =>
    right
    cases hK : b.Kaniko with
    | none => exact ⟨b, rfl, hK⟩
    | some k => exact absurd hres ((key b k hB hK).2.2.1 args)

/-- Witness for C6: with both `build.kaniko` and `build.docker` set, the Kaniko builder
is returned. -/
theorem C6_builder_precedence_witness :
    ∃ args,
      (CreateBuilder (exampleBuildHost (Except.ok "default")) { handle := 7 } emptyConfig
          { Name := some "app"
            Build := some { Kaniko := some {}, Docker := some { PreferMinikube := some true } } }
          "v1").1 = BuildOutcome.ok (Builder.kaniko args) ∧
        args.imageName = "app" ∧ args.imageTag = "v1" ∧ args.dockerClient = { handle := 0 } ∧
        args.kubectl = { handle := 7 } :=
  ((C6_builder_precedence (exampleBuildHost (Except.ok "default")) { handle := 7 } emptyConfig
    { Name := some "app"
      Build := some { Kaniko := some {}, Docker := some { PreferMinikube := some true } } }
    "v1").1 { Kaniko := some {}, Docker := some { PreferMinikube := some true } } {} rfl
    rfl).2.2.2 "default" { handle := 0 } "app" rfl rfl rfl (fun _ => rfl)

/-- C7 fails on the code: with `build.kaniko.namespace = "ns"` and every other
collaborator succeeding, `CreateBuilder` fails with `Error retrieving default namespace`
when the cluster default namespace cannot be obtained; it builds the Kaniko builder in
`ns` when the default namespace can be obtained. -/
theorem C7_configured_namespace_still_needs_default :
    CreateBuilder (exampleBuildHost (Except.error "no cluster")) { handle := 7 } emptyConfig
        { Name := some "app"
          Build := some { Kaniko := some { Namespace := some "ns" } } } "v1" =
      (BuildOutcome.err "Error retrieving default namespace", [Call.getDefaultNamespace]) ∧
    (CreateBuilder (exampleBuildHost (Except.ok "default")) { handle := 7 } emptyConfig
        { Name := some "app"
          Build := some { Kaniko := some { Namespace := some "ns" } } } "v1").1 =
      BuildOutcome.ok (Builder.kaniko
        { pullSecret := ""
          imageName := "app"
          imageTag := "v1"
          previousImageTag := ""
          buildNamespace := "ns"
          dockerClient := { handle := 0 }
          kubectl := { handle := 7 }
          allowInsecurePush := false }) := by
  decide

/-- C7, amended: namespace fallback.  With `build.kaniko` present, `CreateBuilder` first
obtains the cluster default namespace and fails with `Error retrieving default namespace`
exactly when that fails, whether or not `kaniko.namespace` is set.  When the default
namespace `d` is obtained, a Kaniko builder is built with `kaniko.namespace` if it is set
and non-empty and with `d` if it is absent or empty, and such a builder is returned when
the other collaborators succeed. -/
theorem C7_namespace_fallback_amended (h : BuildHost) (client : Clientset)
    (generatedConfig : Config) (imageConf : ImageConfig) (imageTag : String)
    (b : BuildConfig) (k : KanikoConfig)
    (hb : imageConf.Build = some b) (hk : b.Kaniko = some k) :
    (∀ e, h.GetDefaultNamespace = Except.error e →
      CreateBuilder h client generatedConfig imageConf imageTag =
        (BuildOutcome.err "Error retrieving default namespace", [Call.getDefaultNamespace])) ∧
    (∀ d, h.GetDefaultNamespace = Except.ok d →
      (CreateBuilder h client generatedConfig imageConf imageTag).1 ≠
          BuildOutcome.err "Error retrieving default namespace" ∧
      (∀ args, (CreateBuilder h client generatedConfig imageConf imageTag).1 =
          BuildOutcome.ok (Builder.kaniko args) →
        (∀ ns, k.Namespace = some ns → ns ≠ "" → args.buildNamespace = ns) ∧
        (k.Namespace = none ∨ k.Namespace = some "" → args.buildNamespace = d)) ∧
      (∀ dc name, h.NewClient false = Except.ok dc → imageConf.Name = some name →
        (∀ a, h.kanikoNewBuilderError a = none) →
        ∃ args, (CreateBuilder h client generatedConfig imageConf imageTag).1 =
          BuildOutcome.ok (Builder.kaniko args))) := by
  rw [CreateBuilder_kaniko h client generatedConfig imageConf imageTag b k hb hk]
  refine ⟨?_, ?_⟩
  · intro e hG
    simp only [hG]
  · intro d hG
    simp only [hG]
    refine ⟨?_, ?_, ?_⟩
    · cases h.NewClient false with
      | error e =>
        simp only [ne_eq, BuildOutcome.err.injEq]
        exact append_ne_of_prefix_ne _ _ _ (by decide)
      | ok dc =>
        cases imageConf.Name with
        | none => simp
        | some name =>
          simp only []
          split
          · simp only [ne_eq, BuildOutcome.err.injEq]
            exact append_ne_of_prefix_ne _ _ _ (by decide)
          · simp
    · intro args hres
      cases hN : h.NewClient false with
      | error e =>
        rw [hN] at hres
        simp at hres
      | ok dc =>
        cases hName : imageConf.Name with
        | none =>
          rw [hN, hName] at hres
          simp at hres
        | some name =>
          rw [hN, hName] at hres
          simp only [] at hres
          split at hres
          · simp at hres
          · simp only [BuildOutcome.ok.injEq, Builder.kaniko.injEq] at hres
            subst hres
            refine ⟨?_, ?_⟩
            · intro ns hns hne
              simp only [hns, ne_eq, hne, not_false_eq_true, if_true]
            · rintro (hns | hns) <;> simp [hns]
    · intro dc name hN hName hK
      simp only [hN, hName, hK]
      exact ⟨_, rfl⟩

/-- Witness for the amended C7: with the default namespace `default` and
`kaniko.namespace` absent, the Kaniko builder is built in `default`. -/
theorem C7_namespace_fallback_amended_witness :
    ∃ args,
      (CreateBuilder (exampleBuildHost (Except.ok "default")) { handle := 7 } emptyConfig
          { Name := some "app", Build := some { Kaniko := some {} } } "v1").1 =
        BuildOutcome.ok (Builder.kaniko args) ∧
      args.buildNamespace = "default" := by
  have T := (C7_namespace_fallback_amended (exampleBuildHost (Except.ok "default"))
    { handle := 7 } emptyConfig { Name := some "app", Build := some { Kaniko := some {} } }
    "v1" { Kaniko := some {} } {} rfl rfl).2 "default" rfl
  obtain ⟨args, hres⟩ := T.2.2 { handle := 0 } "app" rfl rfl (fun _ => rfl)
  exact ⟨args, hres, ((T.2.1 args hres).2 (Or.inl rfl))⟩

theorem CreateBuilder_docker_calls (h : BuildHost) (client : Clientset)
    (generatedConfig : Config) (imageConf : ImageConfig) (imageTag : String) (pm : Bool)
    (hk : imageConf.Build.bind (fun b => b.Kaniko) = none)
    (hpm : ((imageConf.Build.bind (fun b => b.Docker)).bind
      (fun d => d.PreferMinikube)).getD true = pm) :
    (CreateBuilder h client generatedConfig imageConf imageTag).2.head? =
        some (Call.newClient pm) ∧
    (∀ dc name, h.NewClient pm = Except.ok dc → imageConf.Name = some name →
      h.dockerNewBuilderError { client := dc, imageName := name, imageTag := imageTag } = none →
      CreateBuilder h client generatedConfig imageConf imageTag =
        (BuildOutcome.ok
            (Builder.docker { client := dc, imageName := name, imageTag := imageTag }),
          [Call.newClient pm,
            Call.dockerNewBuilder { client := dc, imageName := name, imageTag := imageTag }])) := by
  rw [CreateBuilder_docker h client generatedConfig imageConf imageTag hk]
  simp only [hpm]
  refine ⟨?_, ?_⟩
  · cases h.NewClient pm with
    | error e => rfl
    | ok dc =>
      cases imageConf.Name with
      | none => rfl
      | some name =>
        simp only []
        split <;> rfl
  · intro dc name hN hName hD
    simp only [hN, hName, hD]

/-- C8: default backend.  With `build` absent, `CreateBuilder` asks for the docker client
with `preferMinikube = true` and, when the client and the Docker constructor succeed
(and the image has a name), returns the Docker builder for the image name and the target
tag.  More generally, in the
Docker branch (`build.kaniko` absent) the client is asked for with
`build.docker.preferMinikube` when that field is set, and with `true` when `build.docker`
or the field is absent. -/
theorem C8_default_backend (h : BuildHost) (client : Clientset) (generatedConfig : Config)
    (imageConf : ImageConfig) (imageTag : String) :
    (imageConf.Build = none →
      (CreateBuilder h client generatedConfig imageConf imageTag).2.head? =
          some (Call.newClient true) ∧
      (∀ dc name, h.NewClient true = Except.ok dc → imageConf.Name = some name →
        h.dockerNewBuilderError { client := dc, imageName := name, imageTag := imageTag } =
          none →
        CreateBuilder h client generatedConfig imageConf imageTag =
          (BuildOutcome.ok
              (Builder.docker { client := dc, imageName := name, imageTag := imageTag }),
            [Call.newClient true,
              Call.dockerNewBuilder
                { client := dc, imageName := name, imageTag := imageTag }]))) ∧
    (∀ b : BuildConfig, imageConf.Build = some b → b.Kaniko = none →
      (∀ (d : DockerConfig) (p : Bool), b.Docker = some d → d.PreferMinikube = some p →
        (CreateBuilder h client generatedConfig imageConf imageTag).2.head? =
            some (Call.newClient p) ∧
        (∀ dc name, h.NewClient p = Except.ok dc → imageConf.Name = some name →
          h.dockerNewBuilderError { client := dc, imageName := name, imageTag := imageTag } =
            none →
          CreateBuilder h client generatedConfig imageConf imageTag =
            (BuildOutcome.ok
                (Builder.docker { client := dc, imageName := name, imageTag := imageTag }),
              [Call.newClient p,
                Call.dockerNewBuilder
                  { client := dc, imageName := name, imageTag := imageTag }]))) ∧
      ((b.Docker = none ∨ ∃ d, b.Docker = some d ∧ d.PreferMinikube = none) →
        (CreateBuilder h client generatedConfig imageConf imageTag).2.head? =
            some (Call.newClient true) ∧
        (∀ dc name, h.NewClient true = Except.ok dc → imageConf.Name = some name →
          h.dockerNewBuilderError { client := dc, imageName := name, imageTag := imageTag } =
            none →
          CreateBuilder h client generatedConfig imageConf imageTag =
            (BuildOutcome.ok
                (Builder.docker { client := dc, imageName := name, imageTag := imageTag }),
              [Call.newClient true,
                Call.dockerNewBuilder
                  { client := dc, imageName := name, imageTag := imageTag }])))) := by
  refine ⟨?_, ?_⟩
  · intro hB
    exact CreateBuilder_docker_calls h client generatedConfig imageConf imageTag true
      (by simp [hB]) (by simp [hB])
  · intro b hB hK
    refine ⟨?_, ?_⟩
    · intro d p hD hP
      exact CreateBuilder_docker_calls h client generatedConfig imageConf imageTag p
        (by simp [hB, hK]) (by simp [hB, hD, hP])
    · rintro (hD | ⟨d, hD, hP⟩)
      · exact CreateBuilder_docker_calls h client generatedConfig imageConf imageTag true
          (by simp [hB, hK]) (by simp [hB, hD])
      · exact CreateBuilder_docker_calls h client generatedConfig imageConf imageTag true
          (by simp [hB, hK]) (by simp [hB, hD, hP])

/-- Witness for C8: the image `app` without a `build` section gets the Docker builder,
from a client asked for with `preferMinikube = true`. -/
theorem C8_default_backend_witness :
    CreateBuilder (exampleBuildHost (Except.error "no cluster")) { handle := 7 } emptyConfig
        { Name := some "app" } "v1" =
      (BuildOutcome.ok
          (Builder.docker { client := { handle := 1 }, imageName := "app", imageTag := "v1" }),
        [Call.newClient true,
          Call.dockerNewBuilder
            { client := { handle := 1 }, imageName := "app", imageTag := "v1" }]) :=
  ((C8_default_backend (exampleBuildHost (Except.error "no cluster")) { handle := 7 }
    emptyConfig { Name := some "app" } "v1").1 rfl).2 { handle := 1 } "app" rfl rfl rfl

end Devspace
